import Mathlib

/-! Two GPIO platform drivers of the rk3568 kernel tree.

* `drivers/usb/typec/mux/switch-simple.c`: the Type-C orientation switch.
* `net/rfkill/rfkill-gpio-neo.c`: the rfkill driver that power-sequences a radio.

Both drivers are embedded as state-passing functions over a `World`: the logical
value of every GPIO line together with the ordered log of the calls the driver
made into the kernel (GPIO writes, busy-wait delays, rfkill and mutex calls).
What the kernel hands back to a driver (allocation results, firmware properties,
GPIO acquisition results, rfkill results) is an explicit environment argument.
-/

namespace Rk3568

/-! ## Kernel interfaces shared by the two drivers -/

/-- Handle of an acquired GPIO line: a valid, non-NULL `struct gpio_desc *`. -/
abbrev GpioDesc := Nat

/-- Handle of an rfkill device: a valid, non-NULL `struct rfkill *`. -/
abbrev RfkillDev := Nat

/-- The errno carried by an error pointer. `IS_ERR` holds exactly for the
pointers that encode `-1 .. -MAX_ERRNO`, with `MAX_ERRNO = 4095`. -/
structure Errno where
  val : Nat
  pos : 0 < val
  le_max : val ≤ 4095
deriving DecidableEq

/-- Value of `ENOMEM`. -/
def ENOMEM : Int := 12

/-- Value of `EINVAL`. -/
def EINVAL : Int := 22

/-- The connection ids under which `rfkill-gpio-neo` asks for its lines. -/
inductive ConId
  | power
  | reset
  | block
deriving DecidableEq, Repr

/-- One call of a driver into the kernel, as recorded in the log. -/
inductive Event
  | mutex_lock
  | mutex_unlock
  | gpiod_get (con_id : ConId)
  | gpio_set (desc : GpioDesc) (value : Bool)
  | mdelay (ms : Nat)
  | rfkill_alloc
  | rfkill_register (dev : Option RfkillDev)
  | rfkill_unregister (dev : Option RfkillDev)
  | rfkill_destroy (dev : Option RfkillDev)
deriving DecidableEq, Repr

/-- Logical value of every GPIO line and the log of calls made so far. -/
structure World where
  gpio : GpioDesc → Bool
  trace : List Event

/-- Append one call to the log. -/
def World.emit (w : World) (e : Event) : World :=
  { w with trace := w.trace ++ [e] }

/-- The line values after line `d` has been driven to `v`. -/
def setLine (g : GpioDesc → Bool) (d : GpioDesc) (v : Bool) : GpioDesc → Bool :=
  fun x => if x = d then v else g x

/-- Modelled from the spec: `gpiod_set_value_cansleep` belongs to gpiolib, which is
not among the sources. It drives the line behind a descriptor to the given
logical value (1 is `true`, 0 is `false`); on a NULL descriptor it returns
without touching any line. -/
def gpiod_set_value_cansleep (desc : Option GpioDesc) (value : Bool) (w : World) : World :=
  match desc with
  | none => w
  | some d => { gpio := setLine w.gpio d value, trace := w.trace ++ [Event.gpio_set d value] }

/-- Modelled from the spec: `mdelay` is a kernel macro outside the sources; it
busy-waits for the given number of milliseconds and changes nothing else. -/
def mdelay (ms : Nat) (w : World) : World :=
  w.emit (Event.mdelay ms)

/-- The GPIO writes recorded in a log. -/
def gpioWrites (t : List Event) : List (GpioDesc × Bool) :=
  t.filterMap fun e =>
    match e with
    | Event.gpio_set d v => some (d, v)
    | _ => none

/-- The busy-wait delays recorded in a log, in milliseconds. -/
def delays (t : List Event) : List Nat :=
  t.filterMap fun e =>
    match e with
    | Event.mdelay ms => some ms
    | _ => none

/-- The rfkill calls (alloc, register, unregister, destroy) recorded in a log. -/
def rfkillCalls (t : List Event) : List Event :=
  t.filter fun e =>
    match e with
    | Event.rfkill_alloc => true
    | Event.rfkill_register _ => true
    | Event.rfkill_unregister _ => true
    | Event.rfkill_destroy _ => true
    | _ => false

/-! ## drivers/usb/typec/mux/switch-simple.c -/

/-- The kernel enumeration `enum typec_orientation`. -/
inductive typec_orientation
  | TYPEC_ORIENTATION_NONE
  | TYPEC_ORIENTATION_NORMAL
  | TYPEC_ORIENTATION_REVERSE
deriving DecidableEq, Repr

/-- The driver data `struct typec_switch_simple`. The mutex `lock` has no data of
its own here: taking and releasing it is recorded in the log. `sel_gpio` is the
optional select line, NULL (`none`) when the firmware does not describe one. -/
structure typec_switch_simple where
  sw : Option Nat
  sel_gpio : Option GpioDesc
deriving DecidableEq, Repr

/-- The switch callback `typec_switch_simple_set` (switch-simple.c, lines 25-48). -/
def typec_switch_simple_set (typec_sw : typec_switch_simple)
    (orientation : typec_orientation) (w : World) : Int × World :=
  let w := w.emit Event.mutex_lock
  let w :=
    match orientation with
    | typec_orientation.TYPEC_ORIENTATION_NORMAL =>
      if typec_sw.sel_gpio.isSome then gpiod_set_value_cansleep typec_sw.sel_gpio true w else w
    | typec_orientation.TYPEC_ORIENTATION_REVERSE =>
      if typec_sw.sel_gpio.isSome then gpiod_set_value_cansleep typec_sw.sel_gpio false w else w
    | typec_orientation.TYPEC_ORIENTATION_NONE => w
  let w := w.emit Event.mutex_unlock
  (0, w)

/-! ## net/rfkill/rfkill-gpio-neo.c -/

/-- The driver data `struct rfkill_gpio_neo_data`. Pointers are `none` when NULL;
the three timing fields are `u32` values in milliseconds. -/
structure rfkill_gpio_neo_data where
  name : Option String
  type : Nat
  power_gpio : Option GpioDesc
  reset_gpio : Option GpioDesc
  block_gpio : Option GpioDesc
  power_on_wait_time : Nat
  reset_active_time : Nat
  reset_wait_time : Nat
  rfkill_dev : Option RfkillDev
deriving DecidableEq, Repr

/-- The rfkill block callback `rfkill_gpio_neo_set_block` (lines 33-40). The
structure is only read; it is returned to make that visible. -/
def rfkill_gpio_neo_set_block (rfkill : rfkill_gpio_neo_data) (blocked : Bool) (w : World) :
    Int × rfkill_gpio_neo_data × World :=
  let w := gpiod_set_value_cansleep rfkill.block_gpio blocked w
  (0, rfkill, w)

/-- The reset pulse `rfkill_gpio_neo_do_reset` (lines 47-67). -/
def rfkill_gpio_neo_do_reset (rfkill : rfkill_gpio_neo_data) (w : World) : Int × World :=
  let w :=
    if rfkill.power_on_wait_time > 10 then mdelay rfkill.power_on_wait_time w
    else mdelay 10 w
  let w := gpiod_set_value_cansleep rfkill.reset_gpio true w
  let w := mdelay rfkill.reset_active_time w
  let w := gpiod_set_value_cansleep rfkill.reset_gpio false w
  let w :=
    if rfkill.reset_wait_time > 10 then mdelay rfkill.reset_wait_time w
    else mdelay 10 w
  (0, w)

/-- The timing validation inside `rfkill_gpio_neo_probe` (lines 92-102). -/
def rfkill_gpio_neo_probe_timing (rfkill : rfkill_gpio_neo_data) : rfkill_gpio_neo_data :=
  let rfkill :=
    if rfkill.power_on_wait_time > 30000 then { rfkill with power_on_wait_time := 0 }
    else rfkill
  let rfkill :=
    if rfkill.reset_active_time < 10 ∨ rfkill.reset_active_time > 1000 then
      { rfkill with reset_active_time := 10 }
    else rfkill
  let rfkill :=
    if rfkill.reset_wait_time > 30000 then { rfkill with reset_wait_time := 0 }
    else rfkill
  rfkill

/-- What the kernel hands to one run of `rfkill_gpio_neo_probe`. None of the
functions behind these fields is among the sources, so their results are inputs:
* `kzalloc_ok`: `devm_kzalloc` returned memory;
* `prop_*`: the firmware properties, `none` when a read fails and leaves its
  destination untouched;
* `dev_name`, `rfkill_find_type`: the device name and the type lookup;
* `gpiod_power`, `gpiod_reset`, `gpiod_block`: the pointer `devm_gpiod_get`
  returned for each line, in the three shapes the driver tells apart: an error
  pointer, NULL, or a descriptor; the initial output level asked for with
  `GPIOD_OUT_LOW` belongs to the acquisition and is no write of the driver;
* `rfkill_alloc`: the pointer from `rfkill_alloc` (NULL on failure);
* `rfkill_register`: the return code of `rfkill_register`. -/
structure ProbeEnv where
  kzalloc_ok : Bool
  prop_name : Option String
  prop_type : Option String
  prop_power_on_wait_time : Option Nat
  prop_reset_active_time : Option Nat
  prop_reset_wait_time : Option Nat
  dev_name : String
  rfkill_find_type : Option String → Nat
  gpiod_power : Except Errno (Option GpioDesc)
  gpiod_reset : Except Errno (Option GpioDesc)
  gpiod_block : Except Errno (Option GpioDesc)
  rfkill_alloc : Option RfkillDev
  rfkill_register : Int

/-- The zero-filled structure that `devm_kzalloc` returns. -/
def rfkill_gpio_neo_data.zero : rfkill_gpio_neo_data :=
  { name := none, type := 0, power_gpio := none, reset_gpio := none, block_gpio := none,
    power_on_wait_time := 0, reset_active_time := 0, reset_wait_time := 0, rfkill_dev := none }

/-- Lines 77-102 of `rfkill_gpio_neo_probe`: the structure after the property
reads, the name fallback, the type lookup and the timing validation. -/
def rfkill_gpio_neo_probe_read (env : ProbeEnv) : rfkill_gpio_neo_data :=
  let rfkill := rfkill_gpio_neo_data.zero
  let rfkill := { rfkill with name := env.prop_name }
  let type_name := env.prop_type
  let rfkill :=
    { rfkill with power_on_wait_time := env.prop_power_on_wait_time.getD rfkill.power_on_wait_time }
  let rfkill :=
    { rfkill with reset_active_time := env.prop_reset_active_time.getD rfkill.reset_active_time }
  let rfkill :=
    { rfkill with reset_wait_time := env.prop_reset_wait_time.getD rfkill.reset_wait_time }
  let rfkill := if rfkill.name.isNone then { rfkill with name := some env.dev_name } else rfkill
  let rfkill := { rfkill with type := env.rfkill_find_type type_name }
  rfkill_gpio_neo_probe_timing rfkill

/-- The probe function `rfkill_gpio_neo_probe` (lines 70-159). The result is the
return code, the driver data set with `platform_set_drvdata` (`none` when probe
left before that call) and the world. An error pointer `e` makes `PTR_ERR`
return `-e`. The diagnostics `dev_err` and `dev_info` have no effect here. -/
def rfkill_gpio_neo_probe (env : ProbeEnv) (w : World) :
    Int × Option rfkill_gpio_neo_data × World :=
  if !env.kzalloc_ok then (-ENOMEM, none, w) else
  let rfkill := rfkill_gpio_neo_probe_read env
  let w := w.emit (Event.gpiod_get ConId.power)
  match env.gpiod_power with
  | Except.error e => (-(e.val : Int), none, w)
  | Except.ok gpio =>
  let rfkill := { rfkill with power_gpio := gpio }
  let w := w.emit (Event.gpiod_get ConId.reset)
  match env.gpiod_reset with
  | Except.error e => (-(e.val : Int), none, w)
  | Except.ok gpio =>
  let rfkill := { rfkill with reset_gpio := gpio }
  let w := w.emit (Event.gpiod_get ConId.block)
  match env.gpiod_block with
  | Except.error e => (-(e.val : Int), none, w)
  | Except.ok gpio =>
  let rfkill := { rfkill with block_gpio := gpio }
  if rfkill.block_gpio.isNone then (-EINVAL, none, w) else
  let w := w.emit Event.rfkill_alloc
  let rfkill := { rfkill with rfkill_dev := env.rfkill_alloc }
  if rfkill.rfkill_dev.isNone then (-ENOMEM, none, w) else
  let w := w.emit (Event.rfkill_register rfkill.rfkill_dev)
  let ret := env.rfkill_register
  if ret < 0 then
    let w := w.emit (Event.rfkill_destroy rfkill.rfkill_dev)
    (ret, none, w)
  else
  let w := if rfkill.power_gpio.isSome then gpiod_set_value_cansleep rfkill.power_gpio true w else w
  let w := gpiod_set_value_cansleep rfkill.block_gpio false w
  let w :=
    if rfkill.reset_gpio.isSome then
      let w := gpiod_set_value_cansleep rfkill.reset_gpio false w
      (rfkill_gpio_neo_do_reset rfkill w).2
    else w
  (0, some rfkill, w)

/-- The remove function `rfkill_gpio_neo_remove` (lines 161-175); `rfkill` is the
driver data that `platform_get_drvdata` returns. -/
def rfkill_gpio_neo_remove (rfkill : rfkill_gpio_neo_data) (w : World) : Int × World :=
  let w := gpiod_set_value_cansleep rfkill.block_gpio true w
  let w := if rfkill.power_gpio.isSome then gpiod_set_value_cansleep rfkill.power_gpio false w else w
  let w := w.emit (Event.rfkill_unregister rfkill.rfkill_dev)
  let w := w.emit (Event.rfkill_destroy rfkill.rfkill_dev)
  (0, w)

/-- The world in which no line is driven and nothing has been logged. -/
def World.init : World :=
  { gpio := fun _ => false, trace := [] }

/-! ## Vocabulary of the statements -/

/-- The kernel test `IS_ERR` on the pointer that `devm_gpiod_get` returned. -/
def IS_ERR (p : Except Errno (Option GpioDesc)) : Bool :=
  match p with
  | Except.error _ => true
  | Except.ok _ => false

/-- The pointer that `devm_gpiod_get` returned is NULL. The non-optional
`devm_gpiod_get` which probe calls hands back a descriptor or an error pointer;
only the optional variant, which switch-simple.c uses for its select line,
hands back NULL for a line the firmware does not describe. -/
def isNull (p : Except Errno (Option GpioDesc)) : Bool :=
  match p with
  | Except.ok none => true
  | _ => false

/-- The calls every run of probe logs up to and including the third acquisition. -/
def acquireEvents : List Event :=
  [Event.gpiod_get ConId.power, Event.gpiod_get ConId.reset, Event.gpiod_get ConId.block]

/-- The power-on write for a power descriptor: power := 1, nothing when NULL. -/
def powerOnEvents (power_gpio : Option GpioDesc) : List Event :=
  match power_gpio with
  | some pw => [Event.gpio_set pw true]
  | none => []

/-- The reset pulse for a reset descriptor and the timing fields `p`, `r`, `t`:
reset := 0, delay `max p 10`, reset := 1, delay `r`, reset := 0, delay
`max t 10`; nothing when the descriptor is NULL. -/
def resetEvents (reset_gpio : Option GpioDesc) (p r t : Nat) : List Event :=
  match reset_gpio with
  | some rs =>
    [Event.gpio_set rs false, Event.mdelay (max p 10), Event.gpio_set rs true, Event.mdelay r,
     Event.gpio_set rs false, Event.mdelay (max t 10)]
  | none => []

/-! ## Concrete inputs -/

/-- A probe environment in which every step succeeds: lines 1 (power), 2 (reset)
and 3 (block), rfkill device 7, an over-long power-on wait and a too-short
reset pulse in the firmware properties. -/
def envAll : ProbeEnv :=
  { kzalloc_ok := true, prop_name := none, prop_type := none,
    prop_power_on_wait_time := some 40000, prop_reset_active_time := some 5,
    prop_reset_wait_time := some 200, dev_name := "rfkill-gpio-neo",
    rfkill_find_type := fun _ => 0,
    gpiod_power := Except.ok (some 1), gpiod_reset := Except.ok (some 2),
    gpiod_block := Except.ok (some 3), rfkill_alloc := some 7, rfkill_register := 0 }

/-- The error pointer for `-ENOENT` (errno 2). -/
def errNoEnt : Errno :=
  { val := 2, pos := by decide, le_max := by decide }

/-- As `envAll`, but the block line cannot be acquired (`-ENOENT`). -/
def envBlockErr : ProbeEnv :=
  { envAll with gpiod_block := Except.error errNoEnt }

/-- The driver data that probe stores for `envAll`. -/
def dataAll : rfkill_gpio_neo_data :=
  { name := some "rfkill-gpio-neo", type := 0, power_gpio := some 1, reset_gpio := some 2,
    block_gpio := some 3, power_on_wait_time := 0, reset_active_time := 10,
    reset_wait_time := 200, rfkill_dev := some 7 }

/-! ## Shared lemmas -/

/-- The three timing fields after validation, field by field. -/
lemma timing_power_on (rfkill : rfkill_gpio_neo_data) :
    (rfkill_gpio_neo_probe_timing rfkill).power_on_wait_time =
      if 30000 < rfkill.power_on_wait_time then 0 else rfkill.power_on_wait_time := by
  unfold rfkill_gpio_neo_probe_timing
  dsimp only
  split_ifs <;> rfl

lemma timing_reset_active (rfkill : rfkill_gpio_neo_data) :
    (rfkill_gpio_neo_probe_timing rfkill).reset_active_time =
      if rfkill.reset_active_time < 10 ∨ 1000 < rfkill.reset_active_time then 10
      else rfkill.reset_active_time := by
  unfold rfkill_gpio_neo_probe_timing
  dsimp only
  split_ifs <;> rfl

lemma timing_reset_wait (rfkill : rfkill_gpio_neo_data) :
    (rfkill_gpio_neo_probe_timing rfkill).reset_wait_time =
      if 30000 < rfkill.reset_wait_time then 0 else rfkill.reset_wait_time := by
  unfold rfkill_gpio_neo_probe_timing
  dsimp only
  split_ifs <;> rfl

/-- The validation touches nothing but the three timing fields. -/
lemma timing_frame (rfkill : rfkill_gpio_neo_data) :
    (rfkill_gpio_neo_probe_timing rfkill).name = rfkill.name ∧
    (rfkill_gpio_neo_probe_timing rfkill).type = rfkill.type ∧
    (rfkill_gpio_neo_probe_timing rfkill).power_gpio = rfkill.power_gpio ∧
    (rfkill_gpio_neo_probe_timing rfkill).reset_gpio = rfkill.reset_gpio ∧
    (rfkill_gpio_neo_probe_timing rfkill).block_gpio = rfkill.block_gpio ∧
    (rfkill_gpio_neo_probe_timing rfkill).rfkill_dev = rfkill.rfkill_dev := by
  unfold rfkill_gpio_neo_probe_timing
  dsimp only
  split_ifs <;> exact ⟨rfl, rfl, rfl, rfl, rfl, rfl⟩

/-- Two driver structures with the same fields are equal. -/
lemma data_ext (a b : rfkill_gpio_neo_data)
    (h1 : a.name = b.name) (h2 : a.type = b.type) (h3 : a.power_gpio = b.power_gpio)
    (h4 : a.reset_gpio = b.reset_gpio) (h5 : a.block_gpio = b.block_gpio)
    (h6 : a.power_on_wait_time = b.power_on_wait_time)
    (h7 : a.reset_active_time = b.reset_active_time)
    (h8 : a.reset_wait_time = b.reset_wait_time) (h9 : a.rfkill_dev = b.rfkill_dev) : a = b := by
  cases a
  cases b
  simp_all

/-! ## Shared lemmas: the exits of probe -/

lemma probe_kzalloc_fail (env : ProbeEnv) (w : World) (hk : env.kzalloc_ok = false) :
    rfkill_gpio_neo_probe env w = (-ENOMEM, none, w) := by
  simp [rfkill_gpio_neo_probe, hk]

lemma probe_power_err (env : ProbeEnv) (w : World) (e : Errno) (hk : env.kzalloc_ok = true)
    (hp : env.gpiod_power = Except.error e) :
    rfkill_gpio_neo_probe env w =
      (-(e.val : Int), none,
        { gpio := w.gpio, trace := w.trace ++ [Event.gpiod_get ConId.power] }) := by
  simp [rfkill_gpio_neo_probe, hk, hp, World.emit]

lemma probe_reset_err (env : ProbeEnv) (w : World) (g1 : Option GpioDesc) (e : Errno)
    (hk : env.kzalloc_ok = true) (hp : env.gpiod_power = Except.ok g1)
    (hr : env.gpiod_reset = Except.error e) :
    rfkill_gpio_neo_probe env w =
      (-(e.val : Int), none,
        { gpio := w.gpio,
          trace := w.trace ++ [Event.gpiod_get ConId.power, Event.gpiod_get ConId.reset] }) := by
  simp [rfkill_gpio_neo_probe, hk, hp, hr, World.emit]

lemma probe_block_err (env : ProbeEnv) (w : World) (g1 g2 : Option GpioDesc) (e : Errno)
    (hk : env.kzalloc_ok = true) (hp : env.gpiod_power = Except.ok g1)
    (hr : env.gpiod_reset = Except.ok g2) (hb : env.gpiod_block = Except.error e) :
    rfkill_gpio_neo_probe env w =
      (-(e.val : Int), none, { gpio := w.gpio, trace := w.trace ++ acquireEvents }) := by
  simp [rfkill_gpio_neo_probe, hk, hp, hr, hb, World.emit, acquireEvents]

lemma probe_block_null (env : ProbeEnv) (w : World) (g1 g2 : Option GpioDesc)
    (hk : env.kzalloc_ok = true) (hp : env.gpiod_power = Except.ok g1)
    (hr : env.gpiod_reset = Except.ok g2) (hb : env.gpiod_block = Except.ok none) :
    rfkill_gpio_neo_probe env w =
      (-EINVAL, none, { gpio := w.gpio, trace := w.trace ++ acquireEvents }) := by
  simp [rfkill_gpio_neo_probe, hk, hp, hr, hb, World.emit, acquireEvents]

lemma probe_alloc_fail (env : ProbeEnv) (w : World) (g1 g2 : Option GpioDesc) (bl : GpioDesc)
    (hk : env.kzalloc_ok = true) (hp : env.gpiod_power = Except.ok g1)
    (hr : env.gpiod_reset = Except.ok g2) (hb : env.gpiod_block = Except.ok (some bl))
    (ha : env.rfkill_alloc = none) :
    rfkill_gpio_neo_probe env w =
      (-ENOMEM, none,
        { gpio := w.gpio, trace := w.trace ++ acquireEvents ++ [Event.rfkill_alloc] }) := by
  simp [rfkill_gpio_neo_probe, hk, hp, hr, hb, ha, World.emit, acquireEvents]

lemma probe_register_fail (env : ProbeEnv) (w : World) (g1 g2 : Option GpioDesc)
    (bl : GpioDesc) (dev : RfkillDev)
    (hk : env.kzalloc_ok = true) (hp : env.gpiod_power = Except.ok g1)
    (hr : env.gpiod_reset = Except.ok g2) (hb : env.gpiod_block = Except.ok (some bl))
    (ha : env.rfkill_alloc = some dev) (hreg : env.rfkill_register < 0) :
    rfkill_gpio_neo_probe env w =
      (env.rfkill_register, none,
        { gpio := w.gpio,
          trace := w.trace ++ acquireEvents ++
            [Event.rfkill_alloc, Event.rfkill_register (some dev),
             Event.rfkill_destroy (some dev)] }) := by
  simp [rfkill_gpio_neo_probe, hk, hp, hr, hb, ha, hreg, World.emit, acquireEvents]

/-- The successful exit: return code, stored data and log, for any shape (NULL
or descriptor) of the power and reset pointers. -/
lemma probe_ok (env : ProbeEnv) (w : World) (g1 g2 : Option GpioDesc)
    (bl : GpioDesc) (dev : RfkillDev)
    (hk : env.kzalloc_ok = true) (hp : env.gpiod_power = Except.ok g1)
    (hr : env.gpiod_reset = Except.ok g2) (hb : env.gpiod_block = Except.ok (some bl))
    (ha : env.rfkill_alloc = some dev) (hreg : ¬ env.rfkill_register < 0) :
    (rfkill_gpio_neo_probe env w).1 = 0 ∧
    (rfkill_gpio_neo_probe env w).2.1 =
      some { rfkill_gpio_neo_probe_read env with
              power_gpio := g1, reset_gpio := g2, block_gpio := some bl,
              rfkill_dev := some dev } ∧
    (rfkill_gpio_neo_probe env w).2.2.trace =
      w.trace ++ acquireEvents ++ [Event.rfkill_alloc, Event.rfkill_register (some dev)] ++
        powerOnEvents g1 ++ [Event.gpio_set bl false] ++
        resetEvents g2 (rfkill_gpio_neo_probe_read env).power_on_wait_time
          (rfkill_gpio_neo_probe_read env).reset_active_time
          (rfkill_gpio_neo_probe_read env).reset_wait_time := by
  refine ⟨?_, ?_, ?_⟩
  · simp [rfkill_gpio_neo_probe, hk, hp, hr, hb, ha, hreg]
  · simp [rfkill_gpio_neo_probe, hk, hp, hr, hb, ha, hreg]
  · simp only [rfkill_gpio_neo_probe, hk, hp, hr, hb, ha, hreg, rfkill_gpio_neo_do_reset,
      gpiod_set_value_cansleep, mdelay, World.emit, acquireEvents, powerOnEvents, resetEvents]
    by_cases h1 : (rfkill_gpio_neo_probe_read env).power_on_wait_time > 10 <;>
      by_cases h2 : (rfkill_gpio_neo_probe_read env).reset_wait_time > 10 <;>
      cases g1 <;> cases g2 <;> simp [h1, h2] <;> omega

/-- Every driver that probe stores has a block descriptor: the state in which the
rfkill core can call the block callback, and in which remove runs. -/
lemma probe_stores_block (env : ProbeEnv) (w : World) (rfkill : rfkill_gpio_neo_data)
    (h : (rfkill_gpio_neo_probe env w).2.1 = some rfkill) :
    ∃ bl, rfkill.block_gpio = some bl := by
  cases hk : env.kzalloc_ok with
  | false =>
    rw [probe_kzalloc_fail env w hk] at h
    simp at h
  | true =>
    rcases hp : env.gpiod_power with e1 | g1
    · rw [probe_power_err env w e1 hk hp] at h
      simp at h
    · rcases hr : env.gpiod_reset with e2 | g2
      · rw [probe_reset_err env w g1 e2 hk hp hr] at h
        simp at h
      · rcases hb : env.gpiod_block with e3 | g3
        · rw [probe_block_err env w g1 g2 e3 hk hp hr hb] at h
          simp at h
        · cases g3 with
          | none =>
            rw [probe_block_null env w g1 g2 hk hp hr hb] at h
            simp at h
          | some bl =>
            cases ha : env.rfkill_alloc with
            | none =>
              rw [probe_alloc_fail env w g1 g2 bl hk hp hr hb ha] at h
              simp at h
            | some dev =>
              by_cases hreg : env.rfkill_register < 0
              · rw [probe_register_fail env w g1 g2 bl dev hk hp hr hb ha hreg] at h
                simp at h
              · rw [(probe_ok env w g1 g2 bl dev hk hp hr hb ha hreg).2.1] at h
                injection h with h
                exact ⟨bl, by rw [← h]⟩

/-- What probe stores, read off the acquisition results: the stored pointers are
the ones `devm_gpiod_get` and `rfkill_alloc` returned, the block one a
descriptor, the rfkill one a device. -/
lemma probe_stores (env : ProbeEnv) (w : World) (rfkill : rfkill_gpio_neo_data)
    (h : (rfkill_gpio_neo_probe env w).2.1 = some rfkill) :
    ∃ bl dev,
      env.gpiod_power = Except.ok rfkill.power_gpio ∧
      env.gpiod_reset = Except.ok rfkill.reset_gpio ∧
      rfkill.block_gpio = some bl ∧ rfkill.rfkill_dev = some dev := by
  cases hk : env.kzalloc_ok with
  | false =>
    rw [probe_kzalloc_fail env w hk] at h
    simp at h
  | true =>
    rcases hp : env.gpiod_power with e1 | g1
    · rw [probe_power_err env w e1 hk hp] at h
      simp at h
    · rcases hr : env.gpiod_reset with e2 | g2
      · rw [probe_reset_err env w g1 e2 hk hp hr] at h
        simp at h
      · rcases hb : env.gpiod_block with e3 | g3
        · rw [probe_block_err env w g1 g2 e3 hk hp hr hb] at h
          simp at h
        · cases g3 with
          | none =>
            rw [probe_block_null env w g1 g2 hk hp hr hb] at h
            simp at h
          | some bl =>
            cases ha : env.rfkill_alloc with
            | none =>
              rw [probe_alloc_fail env w g1 g2 bl hk hp hr hb ha] at h
              simp at h
            | some dev =>
              by_cases hreg : env.rfkill_register < 0
              · rw [probe_register_fail env w g1 g2 bl dev hk hp hr hb ha hreg] at h
                simp at h
              · rw [(probe_ok env w g1 g2 bl dev hk hp hr hb ha hreg).2.1] at h
                injection h with h
                subst h
                exact ⟨bl, dev, rfl, rfl, rfl, rfl⟩

/-- A pointer that is neither an error pointer nor NULL is a descriptor. -/
lemma ok_of_not_null (p : Except Errno (Option GpioDesc)) (g : Option GpioDesc)
    (hp : p = Except.ok g) (hn : isNull p = false) : ∃ d, g = some d := by
  subst hp
  cases g with
  | none => simp [isNull] at hn
  | some d => exact ⟨d, rfl⟩

/-- The log and the lines after remove, on a driver with block line `bl` and power
line `pw`. -/
lemma remove_power (rfkill : rfkill_gpio_neo_data) (w : World) (bl pw : GpioDesc)
    (hb : rfkill.block_gpio = some bl) (hp : rfkill.power_gpio = some pw) :
    (rfkill_gpio_neo_remove rfkill w).2.trace =
      w.trace ++
        [Event.gpio_set bl true, Event.gpio_set pw false,
         Event.rfkill_unregister rfkill.rfkill_dev, Event.rfkill_destroy rfkill.rfkill_dev] ∧
    (rfkill_gpio_neo_remove rfkill w).2.gpio pw = false ∧
    (pw ≠ bl → (rfkill_gpio_neo_remove rfkill w).2.gpio bl = true) ∧
    (∀ x, x ≠ bl → x ≠ pw → (rfkill_gpio_neo_remove rfkill w).2.gpio x = w.gpio x) := by
  refine ⟨?_, ?_, ?_, ?_⟩
  · simp [rfkill_gpio_neo_remove, hb, hp, gpiod_set_value_cansleep, World.emit]
  · simp [rfkill_gpio_neo_remove, hb, hp, gpiod_set_value_cansleep, World.emit, setLine]
  · intro hne
    simp [rfkill_gpio_neo_remove, hb, hp, gpiod_set_value_cansleep, World.emit, setLine,
      Ne.symm hne]
  · intro x hx1 hx2
    simp [rfkill_gpio_neo_remove, hb, hp, gpiod_set_value_cansleep, World.emit, setLine,
      hx1, hx2]

/-! ## Theorems: switch-simple -/

/-- C1: `typec_switch_simple_set` returns 0 for every switch state and every
orientation. With the select GPIO present, NORMAL drives it to 1 and REVERSE
drives it to 0 (one write each, taken under the lock, every other line
untouched), and NONE leaves every line value untouched and writes nothing. With
the select GPIO absent no GPIO write is performed for any orientation. -/
theorem typec_switch_simple_set_spec (typec_sw : typec_switch_simple)
    (orientation : typec_orientation) (w : World) :
    (typec_switch_simple_set typec_sw orientation w).1 = 0 ∧
    (∀ d, typec_sw.sel_gpio = some d →
      orientation = typec_orientation.TYPEC_ORIENTATION_NORMAL →
        (typec_switch_simple_set typec_sw orientation w).2.gpio d = true ∧
        (∀ x, x ≠ d → (typec_switch_simple_set typec_sw orientation w).2.gpio x = w.gpio x) ∧
        (typec_switch_simple_set typec_sw orientation w).2.trace =
          w.trace ++ [Event.mutex_lock, Event.gpio_set d true, Event.mutex_unlock]) ∧
    (∀ d, typec_sw.sel_gpio = some d →
      orientation = typec_orientation.TYPEC_ORIENTATION_REVERSE →
        (typec_switch_simple_set typec_sw orientation w).2.gpio d = false ∧
        (∀ x, x ≠ d → (typec_switch_simple_set typec_sw orientation w).2.gpio x = w.gpio x) ∧
        (typec_switch_simple_set typec_sw orientation w).2.trace =
          w.trace ++ [Event.mutex_lock, Event.gpio_set d false, Event.mutex_unlock]) ∧
    (orientation = typec_orientation.TYPEC_ORIENTATION_NONE →
        (typec_switch_simple_set typec_sw orientation w).2.gpio = w.gpio ∧
        (typec_switch_simple_set typec_sw orientation w).2.trace =
          w.trace ++ [Event.mutex_lock, Event.mutex_unlock]) ∧
    (typec_sw.sel_gpio = none →
        (typec_switch_simple_set typec_sw orientation w).2.gpio = w.gpio ∧
        (typec_switch_simple_set typec_sw orientation w).2.trace =
          w.trace ++ [Event.mutex_lock, Event.mutex_unlock]) := by
  refine ⟨rfl, ?_, ?_, ?_, ?_⟩
  · intro d hd ho
    subst ho
    simp [typec_switch_simple_set, hd, gpiod_set_value_cansleep, World.emit, setLine]
    intro x hx
    simp [hx]
  · intro d hd ho
    subst ho
    simp [typec_switch_simple_set, hd, gpiod_set_value_cansleep, World.emit, setLine]
    intro x hx
    simp [hx]
  · intro ho
    subst ho
    simp [typec_switch_simple_set, World.emit]
  · intro hd
    cases orientation <;> simp [typec_switch_simple_set, hd, World.emit]

/-! ## Theorems: rfkill-gpio-neo, timing validation -/

/-- C2: after the timing validation of `rfkill_gpio_neo_probe`, for every input
(in particular every triple of 32-bit values), `power_on_wait_time <= 30000`,
`10 <= reset_active_time <= 1000` and `reset_wait_time <= 30000`, and a value that
was already inside its range is left unchanged. -/
theorem rfkill_gpio_neo_probe_timing_range (rfkill : rfkill_gpio_neo_data) :
    (rfkill_gpio_neo_probe_timing rfkill).power_on_wait_time ≤ 30000 ∧
    10 ≤ (rfkill_gpio_neo_probe_timing rfkill).reset_active_time ∧
    (rfkill_gpio_neo_probe_timing rfkill).reset_active_time ≤ 1000 ∧
    (rfkill_gpio_neo_probe_timing rfkill).reset_wait_time ≤ 30000 ∧
    (rfkill.power_on_wait_time ≤ 30000 →
      (rfkill_gpio_neo_probe_timing rfkill).power_on_wait_time = rfkill.power_on_wait_time) ∧
    (10 ≤ rfkill.reset_active_time → rfkill.reset_active_time ≤ 1000 →
      (rfkill_gpio_neo_probe_timing rfkill).reset_active_time = rfkill.reset_active_time) ∧
    (rfkill.reset_wait_time ≤ 30000 →
      (rfkill_gpio_neo_probe_timing rfkill).reset_wait_time = rfkill.reset_wait_time) := by
  rw [timing_power_on, timing_reset_active, timing_reset_wait]
  refine ⟨?_, ?_, ?_, ?_, ?_, ?_, ?_⟩ <;> intros <;> split_ifs <;> omega

/-- C9: the timing validation replaces an out-of-range value by a fixed default
and not by the nearest bound: `power_on_wait_time > 30000` becomes 0,
`reset_wait_time > 30000` becomes 0, `reset_active_time` becomes 10 both below
10 and above 1000. It is therefore not monotone (1000 stays 1000 while 1001
becomes 10; 30000 stays 30000 while 30001 becomes 0), and it is idempotent. -/
theorem rfkill_gpio_neo_probe_timing_defaults (rfkill : rfkill_gpio_neo_data) :
    (30000 < rfkill.power_on_wait_time →
      (rfkill_gpio_neo_probe_timing rfkill).power_on_wait_time = 0) ∧
    (30000 < rfkill.reset_wait_time →
      (rfkill_gpio_neo_probe_timing rfkill).reset_wait_time = 0) ∧
    (rfkill.reset_active_time < 10 →
      (rfkill_gpio_neo_probe_timing rfkill).reset_active_time = 10) ∧
    (1000 < rfkill.reset_active_time →
      (rfkill_gpio_neo_probe_timing rfkill).reset_active_time = 10) ∧
    rfkill_gpio_neo_probe_timing (rfkill_gpio_neo_probe_timing rfkill) =
      rfkill_gpio_neo_probe_timing rfkill ∧
    (rfkill_gpio_neo_probe_timing { rfkill with reset_active_time := 1001 }).reset_active_time <
      (rfkill_gpio_neo_probe_timing { rfkill with reset_active_time := 1000 }).reset_active_time ∧
    (rfkill_gpio_neo_probe_timing { rfkill with power_on_wait_time := 30001 }).power_on_wait_time <
      (rfkill_gpio_neo_probe_timing { rfkill with power_on_wait_time := 30000 }).power_on_wait_time ∧
    (rfkill_gpio_neo_probe_timing { rfkill with reset_wait_time := 30001 }).reset_wait_time <
      (rfkill_gpio_neo_probe_timing { rfkill with reset_wait_time := 30000 }).reset_wait_time := by
  refine ⟨?_, ?_, ?_, ?_, ?_, ?_, ?_, ?_⟩
  · intro h
    rw [timing_power_on, if_pos h]
  · intro h
    rw [timing_reset_wait, if_pos h]
  · intro h
    rw [timing_reset_active, if_pos (Or.inl h)]
  · intro h
    rw [timing_reset_active, if_pos (Or.inr h)]
  · obtain ⟨f1, f2, f3, f4, f5, f6⟩ := timing_frame (rfkill_gpio_neo_probe_timing rfkill)
    refine data_ext _ _ f1 f2 f3 f4 f5 ?_ ?_ ?_ f6
    · rw [timing_power_on, timing_power_on]
      split_ifs <;> omega
    · rw [timing_reset_active, timing_reset_active]
      split_ifs <;> omega
    · rw [timing_reset_wait, timing_reset_wait]
      split_ifs <;> omega
  · rw [timing_reset_active, timing_reset_active]
    simp
  · rw [timing_power_on, timing_power_on]
    simp
  · rw [timing_reset_wait, timing_reset_wait]
    simp

/-! ## Theorems: rfkill-gpio-neo, reset pulse and block callback -/

/-- C5: on every driver state, that is a driver with a block line `b` (probe
stores no other, see `probe_stores_block`), `rfkill_gpio_neo_set_block` returns
0 for either value of `blocked`, drives the block line to exactly `blocked`
with a single write, leaves every other line (so the power and reset lines) and
the whole driver structure (so the timing fields) unchanged, and calling it a
second time with the same argument gives the same line values and structure as
calling it once. -/
theorem rfkill_gpio_neo_set_block_spec (rfkill : rfkill_gpio_neo_data) (blocked : Bool)
    (w : World) (b : GpioDesc) (hb : rfkill.block_gpio = some b) :
    (rfkill_gpio_neo_set_block rfkill blocked w).1 = 0 ∧
    (rfkill_gpio_neo_set_block rfkill blocked w).2.2.gpio b = blocked ∧
    (∀ x, x ≠ b → (rfkill_gpio_neo_set_block rfkill blocked w).2.2.gpio x = w.gpio x) ∧
    (rfkill_gpio_neo_set_block rfkill blocked w).2.2.trace =
      w.trace ++ [Event.gpio_set b blocked] ∧
    (rfkill_gpio_neo_set_block rfkill blocked w).2.1 = rfkill ∧
    (rfkill_gpio_neo_set_block rfkill blocked w).2.1.power_on_wait_time =
      rfkill.power_on_wait_time ∧
    (rfkill_gpio_neo_set_block rfkill blocked w).2.1.reset_active_time =
      rfkill.reset_active_time ∧
    (rfkill_gpio_neo_set_block rfkill blocked w).2.1.reset_wait_time =
      rfkill.reset_wait_time ∧
    (rfkill_gpio_neo_set_block (rfkill_gpio_neo_set_block rfkill blocked w).2.1 blocked
        (rfkill_gpio_neo_set_block rfkill blocked w).2.2).2.2.gpio =
      (rfkill_gpio_neo_set_block rfkill blocked w).2.2.gpio ∧
    (rfkill_gpio_neo_set_block (rfkill_gpio_neo_set_block rfkill blocked w).2.1 blocked
        (rfkill_gpio_neo_set_block rfkill blocked w).2.2).2.1 =
      (rfkill_gpio_neo_set_block rfkill blocked w).2.1 := by
  refine ⟨rfl, ?_, ?_, ?_, rfl, rfl, rfl, rfl, ?_, rfl⟩
  · simp [rfkill_gpio_neo_set_block, hb, gpiod_set_value_cansleep, setLine]
  · intro x hx
    simp [rfkill_gpio_neo_set_block, hb, gpiod_set_value_cansleep, setLine, hx]
  · simp [rfkill_gpio_neo_set_block, hb, gpiod_set_value_cansleep]
  · funext x
    simp only [rfkill_gpio_neo_set_block, hb, gpiod_set_value_cansleep, setLine]
    split_ifs <;> rfl

/-- Witness for C5: blocking the radio of `dataAll` drives line 3 high and leaves
the power line 1 and the reset line 2 as they were. -/
theorem rfkill_gpio_neo_set_block_spec_witness :
    dataAll.block_gpio = some 3 ∧
    (rfkill_gpio_neo_set_block dataAll true World.init).2.2.gpio 3 = true ∧
    (rfkill_gpio_neo_set_block dataAll true World.init).2.2.gpio 1 = World.init.gpio 1 ∧
    (rfkill_gpio_neo_set_block dataAll true World.init).2.2.gpio 2 = World.init.gpio 2 ∧
    (rfkill_gpio_neo_set_block dataAll true World.init).2.2.trace = [Event.gpio_set 3 true] :=
  ⟨rfl,
   (rfkill_gpio_neo_set_block_spec dataAll true World.init 3 rfl).2.1,
   (rfkill_gpio_neo_set_block_spec dataAll true World.init 3 rfl).2.2.1 1 (by decide),
   (rfkill_gpio_neo_set_block_spec dataAll true World.init 3 rfl).2.2.1 2 (by decide),
   (rfkill_gpio_neo_set_block_spec dataAll true World.init 3 rfl).2.2.2.1⟩

/-! ## Theorems: rfkill-gpio-neo, probe and remove -/

/-- C3: on a successful probe (memory allocated, the three lines `pw`, `rs`, `bl`
acquired, the rfkill device `dev` allocated and registered) the calls logged
after `rfkill_register` are exactly, in this order: power := 1, block := 0,
reset := 0, delay `max power_on_wait_time 10` ms, reset := 1, delay
`reset_active_time` ms, reset := 0, delay `max reset_wait_time 10` ms, with the
validated timing fields. Probe returns 0, stores the driver data, and (the power
line being a line of its own) ends with power = 1, block = 0, reset = 0 and
every other line untouched. -/
theorem rfkill_gpio_neo_probe_success (env : ProbeEnv) (w : World)
    (pw rs bl : GpioDesc) (dev : RfkillDev)
    (hk : env.kzalloc_ok = true)
    (hp : env.gpiod_power = Except.ok (some pw))
    (hr : env.gpiod_reset = Except.ok (some rs))
    (hb : env.gpiod_block = Except.ok (some bl))
    (ha : env.rfkill_alloc = some dev)
    (hreg : 0 ≤ env.rfkill_register)
    (hpb : pw ≠ bl) (hpr : pw ≠ rs) :
    (rfkill_gpio_neo_probe env w).1 = 0 ∧
    (rfkill_gpio_neo_probe env w).2.1 =
      some { rfkill_gpio_neo_probe_read env with
              power_gpio := some pw, reset_gpio := some rs, block_gpio := some bl,
              rfkill_dev := some dev } ∧
    (rfkill_gpio_neo_probe env w).2.2.trace =
      w.trace ++
        [Event.gpiod_get ConId.power, Event.gpiod_get ConId.reset, Event.gpiod_get ConId.block,
         Event.rfkill_alloc, Event.rfkill_register (some dev)] ++
        [Event.gpio_set pw true, Event.gpio_set bl false, Event.gpio_set rs false,
         Event.mdelay (max (rfkill_gpio_neo_probe_read env).power_on_wait_time 10),
         Event.gpio_set rs true,
         Event.mdelay (rfkill_gpio_neo_probe_read env).reset_active_time,
         Event.gpio_set rs false,
         Event.mdelay (max (rfkill_gpio_neo_probe_read env).reset_wait_time 10)] ∧
    (rfkill_gpio_neo_probe env w).2.2.gpio pw = true ∧
    (rfkill_gpio_neo_probe env w).2.2.gpio bl = false ∧
    (rfkill_gpio_neo_probe env w).2.2.gpio rs = false ∧
    (∀ x, x ≠ pw → x ≠ bl → x ≠ rs → (rfkill_gpio_neo_probe env w).2.2.gpio x = w.gpio x) := by
  have hneg : ¬ env.rfkill_register < 0 := not_lt.mpr hreg
  refine ⟨?_, ?_, ?_, ?_, ?_, ?_, ?_⟩
  · simp [rfkill_gpio_neo_probe, hk, hp, hr, hb, ha, hneg]
  · simp [rfkill_gpio_neo_probe, hk, hp, hr, hb, ha, hneg]
  · simp only [rfkill_gpio_neo_probe, hk, hp, hr, hb, ha, hneg, rfkill_gpio_neo_do_reset,
      gpiod_set_value_cansleep, mdelay, World.emit]
    by_cases h1 : (rfkill_gpio_neo_probe_read env).power_on_wait_time > 10 <;>
      by_cases h2 : (rfkill_gpio_neo_probe_read env).reset_wait_time > 10 <;>
      simp [h1, h2] <;> omega
  · simp only [rfkill_gpio_neo_probe, hk, hp, hr, hb, ha, hneg, rfkill_gpio_neo_do_reset,
      gpiod_set_value_cansleep, mdelay, World.emit, setLine]
    by_cases h1 : (rfkill_gpio_neo_probe_read env).power_on_wait_time > 10 <;>
      by_cases h2 : (rfkill_gpio_neo_probe_read env).reset_wait_time > 10 <;>
      simp [h1, h2, setLine, hpb, hpr]
  · simp only [rfkill_gpio_neo_probe, hk, hp, hr, hb, ha, hneg, rfkill_gpio_neo_do_reset,
      gpiod_set_value_cansleep, mdelay, World.emit, setLine]
    by_cases h1 : (rfkill_gpio_neo_probe_read env).power_on_wait_time > 10 <;>
      by_cases h2 : (rfkill_gpio_neo_probe_read env).reset_wait_time > 10 <;>
      simp [h1, h2, setLine]
  · simp only [rfkill_gpio_neo_probe, hk, hp, hr, hb, ha, hneg, rfkill_gpio_neo_do_reset,
      gpiod_set_value_cansleep, mdelay, World.emit, setLine]
    by_cases h1 : (rfkill_gpio_neo_probe_read env).power_on_wait_time > 10 <;>
      by_cases h2 : (rfkill_gpio_neo_probe_read env).reset_wait_time > 10 <;>
      simp [h1, h2, setLine]
  · intro x hx1 hx2 hx3
    simp only [rfkill_gpio_neo_probe, hk, hp, hr, hb, ha, hneg, rfkill_gpio_neo_do_reset,
      gpiod_set_value_cansleep, mdelay, World.emit, setLine]
    by_cases h1 : (rfkill_gpio_neo_probe_read env).power_on_wait_time > 10 <;>
      by_cases h2 : (rfkill_gpio_neo_probe_read env).reset_wait_time > 10 <;>
      simp [h1, h2, setLine, hx1, hx2, hx3]

/-- Witness for C3 on `envAll`: lines 1, 2, 3 and device 7; the firmware asks for
a 40000 ms power-on wait and a 5 ms pulse, validated to 0 and 10. -/
theorem rfkill_gpio_neo_probe_success_witness :
    (rfkill_gpio_neo_probe envAll World.init).1 = 0 ∧
    (rfkill_gpio_neo_probe envAll World.init).2.1 = some dataAll ∧
    (rfkill_gpio_neo_probe envAll World.init).2.2.trace =
      [Event.gpiod_get ConId.power, Event.gpiod_get ConId.reset, Event.gpiod_get ConId.block,
       Event.rfkill_alloc, Event.rfkill_register (some 7),
       Event.gpio_set 1 true, Event.gpio_set 3 false, Event.gpio_set 2 false,
       Event.mdelay 10, Event.gpio_set 2 true, Event.mdelay 10, Event.gpio_set 2 false,
       Event.mdelay 200] ∧
    (rfkill_gpio_neo_probe envAll World.init).2.2.gpio 1 = true ∧
    (rfkill_gpio_neo_probe envAll World.init).2.2.gpio 3 = false ∧
    (rfkill_gpio_neo_probe envAll World.init).2.2.gpio 2 = false :=
  have h := rfkill_gpio_neo_probe_success envAll World.init 1 2 3 7 rfl rfl rfl rfl rfl
    (by decide) (by decide) (by decide)
  ⟨h.1, h.2.1.trans rfl, h.2.2.1.trans (by decide), h.2.2.2.1, h.2.2.2.2.1, h.2.2.2.2.2.1⟩

/-- C6: the block GPIO is mandatory. Whenever `devm_gpiod_get` for the block line
hands back an error pointer or NULL, probe returns a negative code, stores no
driver data and makes no rfkill call (no device is allocated or registered).
When probe got as far as the block acquisition, the code is the acquisition
error, or `-EINVAL` for a NULL descriptor. -/
theorem rfkill_gpio_neo_probe_block_mandatory (env : ProbeEnv) (w : World)
    (h : IS_ERR env.gpiod_block = true ∨ env.gpiod_block = Except.ok none) :
    (rfkill_gpio_neo_probe env w).1 < 0 ∧
    (rfkill_gpio_neo_probe env w).2.1 = none ∧
    rfkillCalls (rfkill_gpio_neo_probe env w).2.2.trace = rfkillCalls w.trace ∧
    (env.kzalloc_ok = true → IS_ERR env.gpiod_power = false → IS_ERR env.gpiod_reset = false →
      (∀ e, env.gpiod_block = Except.error e →
        (rfkill_gpio_neo_probe env w).1 = -(e.val : Int)) ∧
      (env.gpiod_block = Except.ok none → (rfkill_gpio_neo_probe env w).1 = -EINVAL)) := by
  cases hk : env.kzalloc_ok with
  | false =>
    rw [probe_kzalloc_fail env w hk]
    simp [ENOMEM]
  | true =>
    rcases hp : env.gpiod_power with e1 | g1
    · rw [probe_power_err env w e1 hk hp]
      have := e1.pos
      simp [rfkillCalls, IS_ERR]
      omega
    · rcases hr : env.gpiod_reset with e2 | g2
      · rw [probe_reset_err env w g1 e2 hk hp hr]
        have := e2.pos
        simp [rfkillCalls, IS_ERR]
        omega
      · rcases hb : env.gpiod_block with e3 | g3
        · rw [probe_block_err env w g1 g2 e3 hk hp hr hb]
          have := e3.pos
          simp [rfkillCalls, IS_ERR, acquireEvents]
          omega
        · cases g3 with
          | none =>
            rw [probe_block_null env w g1 g2 hk hp hr hb]
            simp [rfkillCalls, IS_ERR, acquireEvents, EINVAL]
          | some bl =>
            rw [hb] at h
            simp [IS_ERR] at h

/-- Witness for C6 on `envBlockErr`: the block acquisition fails with `-ENOENT`. -/
theorem rfkill_gpio_neo_probe_block_mandatory_witness :
    IS_ERR envBlockErr.gpiod_block = true ∧
    (rfkill_gpio_neo_probe envBlockErr World.init).1 = -2 ∧
    rfkillCalls (rfkill_gpio_neo_probe envBlockErr World.init).2.2.trace = [] :=
  have h := rfkill_gpio_neo_probe_block_mandatory envBlockErr World.init (Or.inl rfl)
  ⟨rfl, (h.2.2.2 rfl rfl rfl).1 errNoEnt rfl, h.2.2.1⟩

/-- C7: probe returns a non-zero code if and only if a step fails: the memory
allocation, a GPIO acquisition (an error pointer for power, reset or block, or
no block descriptor), `rfkill_alloc`, or `rfkill_register` (a negative code).
Every non-zero code is negative; on every such path the driver writes no GPIO
value, runs no delay and stores no driver data. The codes are
`-ENOMEM` for the two allocations, the acquisition error of the first failing
line, `-EINVAL` for a missing block descriptor and the code of
`rfkill_register` itself; when `rfkill_register` fails, the device allocated
just before is destroyed, as the last call before returning. -/
theorem rfkill_gpio_neo_probe_failure (env : ProbeEnv) (w : World) :
    ((rfkill_gpio_neo_probe env w).1 ≠ 0 ↔
      (env.kzalloc_ok = false ∨ IS_ERR env.gpiod_power = true ∨
       IS_ERR env.gpiod_reset = true ∨ IS_ERR env.gpiod_block = true ∨
       env.gpiod_block = Except.ok none ∨ env.rfkill_alloc = none ∨
       env.rfkill_register < 0)) ∧
    ((rfkill_gpio_neo_probe env w).1 ≠ 0 →
      (rfkill_gpio_neo_probe env w).1 < 0 ∧
      (rfkill_gpio_neo_probe env w).2.1 = none ∧
      gpioWrites (rfkill_gpio_neo_probe env w).2.2.trace = gpioWrites w.trace ∧
      delays (rfkill_gpio_neo_probe env w).2.2.trace = delays w.trace) ∧
    (env.kzalloc_ok = false → (rfkill_gpio_neo_probe env w).1 = -ENOMEM) ∧
    (env.kzalloc_ok = true → ∀ e, env.gpiod_power = Except.error e →
      (rfkill_gpio_neo_probe env w).1 = -(e.val : Int)) ∧
    (env.kzalloc_ok = true → ∀ g1 e, env.gpiod_power = Except.ok g1 →
      env.gpiod_reset = Except.error e →
      (rfkill_gpio_neo_probe env w).1 = -(e.val : Int)) ∧
    (env.kzalloc_ok = true → ∀ g1 g2 e, env.gpiod_power = Except.ok g1 →
      env.gpiod_reset = Except.ok g2 → env.gpiod_block = Except.error e →
      (rfkill_gpio_neo_probe env w).1 = -(e.val : Int)) ∧
    (env.kzalloc_ok = true → ∀ g1 g2, env.gpiod_power = Except.ok g1 →
      env.gpiod_reset = Except.ok g2 → env.gpiod_block = Except.ok none →
      (rfkill_gpio_neo_probe env w).1 = -EINVAL) ∧
    (env.kzalloc_ok = true → ∀ g1 g2 bl, env.gpiod_power = Except.ok g1 →
      env.gpiod_reset = Except.ok g2 → env.gpiod_block = Except.ok (some bl) →
      env.rfkill_alloc = none →
      (rfkill_gpio_neo_probe env w).1 = -ENOMEM ∧
      (rfkill_gpio_neo_probe env w).2.2.trace =
        w.trace ++ acquireEvents ++ [Event.rfkill_alloc]) ∧
    (env.kzalloc_ok = true → ∀ g1 g2 bl dev, env.gpiod_power = Except.ok g1 →
      env.gpiod_reset = Except.ok g2 → env.gpiod_block = Except.ok (some bl) →
      env.rfkill_alloc = some dev → env.rfkill_register < 0 →
      (rfkill_gpio_neo_probe env w).1 = env.rfkill_register ∧
      (rfkill_gpio_neo_probe env w).2.2.trace =
        w.trace ++ acquireEvents ++
          [Event.rfkill_alloc, Event.rfkill_register (some dev),
           Event.rfkill_destroy (some dev)]) := by
  refine ⟨?_, ?_, ?_, ?_, ?_, ?_, ?_, ?_, ?_⟩
  · cases hk : env.kzalloc_ok with
    | false =>
      rw [probe_kzalloc_fail env w hk]
      simp [ENOMEM]
    | true =>
      rcases hp : env.gpiod_power with e1 | g1
      · rw [probe_power_err env w e1 hk hp]
        have := e1.pos
        simp [IS_ERR]
        omega
      · rcases hr : env.gpiod_reset with e2 | g2
        · rw [probe_reset_err env w g1 e2 hk hp hr]
          have := e2.pos
          simp [IS_ERR]
          omega
        · rcases hb : env.gpiod_block with e3 | g3
          · rw [probe_block_err env w g1 g2 e3 hk hp hr hb]
            have := e3.pos
            simp [IS_ERR]
            omega
          · cases g3 with
            | none =>
              rw [probe_block_null env w g1 g2 hk hp hr hb]
              simp [IS_ERR, EINVAL]
            | some bl =>
              cases ha : env.rfkill_alloc with
              | none =>
                rw [probe_alloc_fail env w g1 g2 bl hk hp hr hb ha]
                simp [IS_ERR, ENOMEM]
              | some dev =>
                by_cases hreg : env.rfkill_register < 0
                · rw [probe_register_fail env w g1 g2 bl dev hk hp hr hb ha hreg]
                  simp [IS_ERR, hreg]
                  omega
                · rw [(probe_ok env w g1 g2 bl dev hk hp hr hb ha hreg).1]
                  simp [IS_ERR, hreg]
  · cases hk : env.kzalloc_ok with
    | false =>
      rw [probe_kzalloc_fail env w hk]
      simp [ENOMEM]
    | true =>
      rcases hp : env.gpiod_power with e1 | g1
      · rw [probe_power_err env w e1 hk hp]
        have := e1.pos
        simp [gpioWrites, delays]
        omega
      · rcases hr : env.gpiod_reset with e2 | g2
        · rw [probe_reset_err env w g1 e2 hk hp hr]
          have := e2.pos
          simp [gpioWrites, delays]
          omega
        · rcases hb : env.gpiod_block with e3 | g3
          · rw [probe_block_err env w g1 g2 e3 hk hp hr hb]
            have := e3.pos
            simp [gpioWrites, delays, acquireEvents]
            omega
          · cases g3 with
            | none =>
              rw [probe_block_null env w g1 g2 hk hp hr hb]
              simp [gpioWrites, delays, acquireEvents, EINVAL]
            | some bl =>
              cases ha : env.rfkill_alloc with
              | none =>
                rw [probe_alloc_fail env w g1 g2 bl hk hp hr hb ha]
                simp [gpioWrites, delays, acquireEvents, ENOMEM]
              | some dev =>
                by_cases hreg : env.rfkill_register < 0
                · rw [probe_register_fail env w g1 g2 bl dev hk hp hr hb ha hreg]
                  simp [gpioWrites, delays, acquireEvents, hreg]
                · intro hne
                  exact absurd (probe_ok env w g1 g2 bl dev hk hp hr hb ha hreg).1 hne
  · intro hk
    rw [probe_kzalloc_fail env w hk]
  · intro hk e hp
    rw [probe_power_err env w e hk hp]
  · intro hk g1 e hp hr
    rw [probe_reset_err env w g1 e hk hp hr]
  · intro hk g1 g2 e hp hr hb
    rw [probe_block_err env w g1 g2 e hk hp hr hb]
  · intro hk g1 g2 hp hr hb
    rw [probe_block_null env w g1 g2 hk hp hr hb]
  · intro hk g1 g2 bl hp hr hb ha
    rw [probe_alloc_fail env w g1 g2 bl hk hp hr hb ha]
    exact ⟨rfl, rfl⟩
  · intro hk g1 g2 bl dev hp hr hb ha hreg
    rw [probe_register_fail env w g1 g2 bl dev hk hp hr hb ha hreg]
    exact ⟨rfl, rfl⟩

/-- C8: the power and reset GPIOs are as mandatory as the block GPIO. The
non-optional `devm_gpiod_get` never hands back NULL for them (`hpn`, `hrn`), so:
an error pointer for the power, reset or block line makes probe return that
error, the first one in the order power, reset, block, with no driver data
stored and no rfkill call (no device is allocated); and every probe that
reaches the power-on step, that is every probe returning 0, holds a power and a
reset descriptor and logs after `rfkill_register` the power write, block := 0
and the whole reset pulse: neither the power write nor the pulse is skipped. -/
theorem rfkill_gpio_neo_probe_power_reset_mandatory (env : ProbeEnv) (w : World)
    (hpn : isNull env.gpiod_power = false) (hrn : isNull env.gpiod_reset = false) :
    (env.kzalloc_ok = true → ∀ e, env.gpiod_power = Except.error e →
      (rfkill_gpio_neo_probe env w).1 = -(e.val : Int) ∧
      (rfkill_gpio_neo_probe env w).1 < 0 ∧
      (rfkill_gpio_neo_probe env w).2.1 = none ∧
      rfkillCalls (rfkill_gpio_neo_probe env w).2.2.trace = rfkillCalls w.trace) ∧
    (env.kzalloc_ok = true → ∀ g1 e, env.gpiod_power = Except.ok g1 →
      env.gpiod_reset = Except.error e →
      (rfkill_gpio_neo_probe env w).1 = -(e.val : Int) ∧
      (rfkill_gpio_neo_probe env w).1 < 0 ∧
      (rfkill_gpio_neo_probe env w).2.1 = none ∧
      rfkillCalls (rfkill_gpio_neo_probe env w).2.2.trace = rfkillCalls w.trace) ∧
    (env.kzalloc_ok = true → ∀ g1 g2 e, env.gpiod_power = Except.ok g1 →
      env.gpiod_reset = Except.ok g2 → env.gpiod_block = Except.error e →
      (rfkill_gpio_neo_probe env w).1 = -(e.val : Int) ∧
      (rfkill_gpio_neo_probe env w).1 < 0 ∧
      (rfkill_gpio_neo_probe env w).2.1 = none ∧
      rfkillCalls (rfkill_gpio_neo_probe env w).2.2.trace = rfkillCalls w.trace) ∧
    ((rfkill_gpio_neo_probe env w).1 = 0 →
      ∃ pw rs bl dev,
        env.gpiod_power = Except.ok (some pw) ∧ env.gpiod_reset = Except.ok (some rs) ∧
        env.gpiod_block = Except.ok (some bl) ∧ env.rfkill_alloc = some dev ∧
        (rfkill_gpio_neo_probe env w).2.1 =
          some { rfkill_gpio_neo_probe_read env with
                  power_gpio := some pw, reset_gpio := some rs, block_gpio := some bl,
                  rfkill_dev := some dev } ∧
        (rfkill_gpio_neo_probe env w).2.2.trace =
          w.trace ++ acquireEvents ++ [Event.rfkill_alloc, Event.rfkill_register (some dev)] ++
            [Event.gpio_set pw true, Event.gpio_set bl false, Event.gpio_set rs false,
             Event.mdelay (max (rfkill_gpio_neo_probe_read env).power_on_wait_time 10),
             Event.gpio_set rs true,
             Event.mdelay (rfkill_gpio_neo_probe_read env).reset_active_time,
             Event.gpio_set rs false,
             Event.mdelay (max (rfkill_gpio_neo_probe_read env).reset_wait_time 10)]) := by
  refine ⟨?_, ?_, ?_, ?_⟩
  · intro hk e hp
    rw [probe_power_err env w e hk hp]
    have := e.pos
    simp [rfkillCalls]
    omega
  · intro hk g1 e hp hr
    rw [probe_reset_err env w g1 e hk hp hr]
    have := e.pos
    simp [rfkillCalls]
    omega
  · intro hk g1 g2 e hp hr hb
    rw [probe_block_err env w g1 g2 e hk hp hr hb]
    have := e.pos
    simp [rfkillCalls, acquireEvents]
    omega
  · intro h0
    cases hk : env.kzalloc_ok with
    | false =>
      rw [probe_kzalloc_fail env w hk] at h0
      simp [ENOMEM] at h0
    | true =>
      rcases hp : env.gpiod_power with e1 | g1
      · rw [probe_power_err env w e1 hk hp] at h0
        have := e1.pos
        simp at h0
        omega
      · rcases hr : env.gpiod_reset with e2 | g2
        · rw [probe_reset_err env w g1 e2 hk hp hr] at h0
          have := e2.pos
          simp at h0
          omega
        · rcases hb : env.gpiod_block with e3 | g3
          · rw [probe_block_err env w g1 g2 e3 hk hp hr hb] at h0
            have := e3.pos
            simp at h0
            omega
          · cases g3 with
            | none =>
              rw [probe_block_null env w g1 g2 hk hp hr hb] at h0
              simp [EINVAL] at h0
            | some bl =>
              cases ha : env.rfkill_alloc with
              | none =>
                rw [probe_alloc_fail env w g1 g2 bl hk hp hr hb ha] at h0
                simp [ENOMEM] at h0
              | some dev =>
                by_cases hreg : env.rfkill_register < 0
                · rw [probe_register_fail env w g1 g2 bl dev hk hp hr hb ha hreg] at h0
                  simp at h0
                  omega
                · obtain ⟨pw, hpw⟩ := ok_of_not_null env.gpiod_power g1 hp hpn
                  obtain ⟨rs, hrs⟩ := ok_of_not_null env.gpiod_reset g2 hr hrn
                  subst hpw
                  subst hrs
                  obtain ⟨-, h2, h3⟩ :=
                    probe_ok env w (some pw) (some rs) bl dev hk hp hr hb ha hreg
                  refine ⟨pw, rs, bl, dev, rfl, rfl, rfl, rfl, h2, ?_⟩
                  rw [h3]
                  simp [powerOnEvents, resetEvents]

/-- Witness for C8 on `envAll`: neither pointer is NULL, probe returns 0 and its
GPIO writes are power := 1, block := 0 and the reset pulse 0, 1, 0. -/
theorem rfkill_gpio_neo_probe_power_reset_mandatory_witness :
    isNull envAll.gpiod_power = false ∧ isNull envAll.gpiod_reset = false ∧
    (rfkill_gpio_neo_probe envAll World.init).1 = 0 ∧
    gpioWrites (rfkill_gpio_neo_probe envAll World.init).2.2.trace =
      [(1, true), (3, false), (2, false), (2, true), (2, false)] := by
  obtain ⟨pw, rs, bl, dev, hp, hr, hb, ha, -, ht⟩ :=
    (rfkill_gpio_neo_probe_power_reset_mandatory envAll World.init rfl rfl).2.2.2 rfl
  have h1 : pw = 1 := by
    simp only [envAll, Except.ok.injEq, Option.some.injEq] at hp
    exact hp.symm
  have h2 : rs = 2 := by
    simp only [envAll, Except.ok.injEq, Option.some.injEq] at hr
    exact hr.symm
  have h3 : bl = 3 := by
    simp only [envAll, Except.ok.injEq, Option.some.injEq] at hb
    exact hb.symm
  subst h1
  subst h2
  subst h3
  refine ⟨rfl, rfl, rfl, ?_⟩
  rw [ht]
  simp [gpioWrites, acquireEvents, World.init]

/-- C4: on every driver state, that is on every structure that a probe stored
(the non-optional `devm_gpiod_get` never handing back NULL for the power and
reset lines, `hpn` and `hrn`), and in every world, remove returns 0 and logs, in
this order, block := 1, power := 0, `rfkill_unregister`, `rfkill_destroy` of
the stored device. It ends with power = 0 and block = 1 (the two being
different lines) and leaves the reset line, like every line other than block
and power, unchanged. -/
theorem rfkill_gpio_neo_remove_probed (env : ProbeEnv) (w0 w : World)
    (rfkill : rfkill_gpio_neo_data)
    (hprobe : (rfkill_gpio_neo_probe env w0).2.1 = some rfkill)
    (hpn : isNull env.gpiod_power = false) (hrn : isNull env.gpiod_reset = false) :
    (rfkill_gpio_neo_remove rfkill w).1 = 0 ∧
    ∃ bl pw rs dev,
      rfkill.block_gpio = some bl ∧ rfkill.power_gpio = some pw ∧
      rfkill.reset_gpio = some rs ∧ rfkill.rfkill_dev = some dev ∧
      (rfkill_gpio_neo_remove rfkill w).2.trace =
        w.trace ++
          [Event.gpio_set bl true, Event.gpio_set pw false,
           Event.rfkill_unregister (some dev), Event.rfkill_destroy (some dev)] ∧
      (rfkill_gpio_neo_remove rfkill w).2.gpio pw = false ∧
      (pw ≠ bl → (rfkill_gpio_neo_remove rfkill w).2.gpio bl = true) ∧
      (rs ≠ bl → rs ≠ pw → (rfkill_gpio_neo_remove rfkill w).2.gpio rs = w.gpio rs) ∧
      (∀ x, x ≠ bl → x ≠ pw → (rfkill_gpio_neo_remove rfkill w).2.gpio x = w.gpio x) := by
  obtain ⟨bl, dev, hp, hr, hb, hd⟩ := probe_stores env w0 rfkill hprobe
  obtain ⟨pw, hpw⟩ := ok_of_not_null env.gpiod_power rfkill.power_gpio hp hpn
  obtain ⟨rs, hrs⟩ := ok_of_not_null env.gpiod_reset rfkill.reset_gpio hr hrn
  obtain ⟨t1, t2, t3, t4⟩ := remove_power rfkill w bl pw hb hpw
  rw [hd] at t1
  exact ⟨rfl, bl, pw, rs, dev, hb, hpw, hrs, hd, t1, t2, t3, fun h1 h2 => t4 rs h1 h2, t4⟩

/-- Witness for C4 on the driver that probe stores for `envAll`: remove drives
block line 3 high, then power line 1 low, then unregisters and destroys
device 7; reset line 2 keeps its value. -/
theorem rfkill_gpio_neo_remove_probed_witness :
    (rfkill_gpio_neo_probe envAll World.init).2.1 = some dataAll ∧
    isNull envAll.gpiod_power = false ∧ isNull envAll.gpiod_reset = false ∧
    (rfkill_gpio_neo_remove dataAll World.init).1 = 0 ∧
    (rfkill_gpio_neo_remove dataAll World.init).2.trace =
      [Event.gpio_set 3 true, Event.gpio_set 1 false,
       Event.rfkill_unregister (some 7), Event.rfkill_destroy (some 7)] ∧
    (rfkill_gpio_neo_remove dataAll World.init).2.gpio 1 = false ∧
    (rfkill_gpio_neo_remove dataAll World.init).2.gpio 3 = true ∧
    (rfkill_gpio_neo_remove dataAll World.init).2.gpio 2 = World.init.gpio 2 := by
  obtain ⟨h0, bl, pw, rs, dev, hb, hp, hr, hd, ht, g1, g2, g3, -⟩ :=
    rfkill_gpio_neo_remove_probed envAll World.init World.init dataAll rfl rfl rfl
  have e1 : bl = 3 := by
    simp only [dataAll, Option.some.injEq] at hb
    exact hb.symm
  have e2 : pw = 1 := by
    simp only [dataAll, Option.some.injEq] at hp
    exact hp.symm
  have e3 : rs = 2 := by
    simp only [dataAll, Option.some.injEq] at hr
    exact hr.symm
  have e4 : dev = 7 := by
    simp only [dataAll, Option.some.injEq] at hd
    exact hd.symm
  subst e1
  subst e2
  subst e3
  subst e4
  exact ⟨rfl, rfl, rfl, h0, ht, g1, g2 (by decide), g3 (by decide) (by decide)⟩

end Rk3568
